import Mathlib

/-!
Verification of the pump-fun-clone bonding-curve program.

Shallow embedding of `programs/pump-fun-clone/src`:
* `constants.rs`  — curve constants and the pure pricing functions
  `calculate_k`, `calculate_tokens_out`, `calculate_sol_out`, `is_complete`;
* `state.rs`      — `GlobalConfig` and `BondingCurve` with `update_after_buy`,
  `update_after_sell`, `complete`;
* `instructions/` — the buy/sell/create/complete handlers, modelled as
  straight-line state transformers over an explicit `TradeState`.

Machine integers are modelled as `Nat` with explicit `u64`/`u128` bounds:
`checked_add`/`checked_sub`/`checked_mul` become guarded branches, the Rust
`as u64` cast becomes `% (U64MAX + 1)`, and the `.expect` calls (panics) in
the state-update helpers become an `aborted` outcome distinct from a
returned error.
-/

deriving instance DecidableEq for Except

/-- `u64::MAX`. -/
def U64MAX : Nat := 2 ^ 64 - 1

/-- `u128::MAX`. -/
def U128MAX : Nat := 2 ^ 128 - 1

/-- Error enum from `errors.rs` (`PumpFunError`). -/
inductive PumpFunError where
  | InvalidAmount
  | InvalidReserves
  | MathOverflow
  | InsufficientLiquidity
  | AlreadyCompleted
  | NotCompleted
  | SlippageExceeded
  | InvalidMetadata
  | Unauthorized
  | InsufficientCreationFee
  | MinSolAmountNotMet
  | InvalidTokenMint
  | InvalidTokenAccount
  | TokenAccountNotEmpty
deriving DecidableEq, Repr

/-- `TOTAL_SUPPLY` from `constants.rs`. -/
def TOTAL_SUPPLY : Nat := 1000000000000000

/-- `CURVE_TOKENS` from `constants.rs`. -/
def CURVE_TOKENS : Nat := 793000000000000

/-- `RESERVED_TOKENS` from `constants.rs`. -/
def RESERVED_TOKENS : Nat := 207000000000000

/-- `INITIAL_VIRTUAL_SOL_RESERVE` from `constants.rs` (30 SOL in lamports). -/
def INITIAL_VIRTUAL_SOL_RESERVE : Nat := 30000000000

/-- `INITIAL_VIRTUAL_TOKEN_RESERVE` from `constants.rs`. -/
def INITIAL_VIRTUAL_TOKEN_RESERVE : Nat := CURVE_TOKENS

/-- `TARGET_VIRTUAL_MC` from `constants.rs` (500 SOL in lamports). -/
def TARGET_VIRTUAL_MC : Nat := 500000000000

/-- `PROTOCOL_FEE_BPS` from `constants.rs` (0.5% = 50 bps). -/
def PROTOCOL_FEE_BPS : Nat := 50

/-- `CREATION_FEE` from `constants.rs` (0.02 SOL in lamports). -/
def CREATION_FEE : Nat := 20000000

/-- `MIN_SOL_AMOUNT` from `constants.rs` (0.001 SOL). -/
def MIN_SOL_AMOUNT : Nat := 1000000

/-- `calculate_k` from `constants.rs`: `(sol_reserve as u128) * (token_reserve as u128)`.
The product of two `u64` values always fits in `u128`, so plain `Nat`
multiplication is exact. -/
def calculate_k (sol_reserve token_reserve : Nat) : Nat :=
  sol_reserve * token_reserve

/-- `calculate_tokens_out` from `constants.rs`.
`checked_add` fails exactly when the `u64` sum would wrap; the
`(k / new_sol_reserve) as u64` cast and the `fee_amount as u64` cast are
`% (U64MAX + 1)`; `checked_mul` is on `u128`; `checked_div` by the literal
`10000` can never fail and is a plain division. -/
def calculate_tokens_out (sol_in sol_reserve token_reserve : Nat) :
    Except PumpFunError Nat :=
  if sol_in = 0 then .error .InvalidAmount
  else if sol_reserve = 0 then .error .InvalidReserves
  else if token_reserve = 0 then .error .InvalidReserves
  else
    let k := calculate_k sol_reserve token_reserve
    if U64MAX < sol_reserve + sol_in then .error .MathOverflow
    else
      let new_sol_reserve := sol_reserve + sol_in
      let new_token_reserve := k / new_sol_reserve % (U64MAX + 1)
      if token_reserve < new_token_reserve then .error .InsufficientLiquidity
      else
        let tokens_out := token_reserve - new_token_reserve
        if U128MAX < tokens_out * PROTOCOL_FEE_BPS then .error .MathOverflow
        else
          let fee_amount := tokens_out * PROTOCOL_FEE_BPS / 10000
          if tokens_out < fee_amount % (U64MAX + 1) then .error .MathOverflow
          else .ok (tokens_out - fee_amount % (U64MAX + 1))

/-- `calculate_sol_out` from `constants.rs`, symmetric to
`calculate_tokens_out`. -/
def calculate_sol_out (tokens_in sol_reserve token_reserve : Nat) :
    Except PumpFunError Nat :=
  if tokens_in = 0 then .error .InvalidAmount
  else if sol_reserve = 0 then .error .InvalidReserves
  else if token_reserve = 0 then .error .InvalidReserves
  else
    let k := calculate_k sol_reserve token_reserve
    if U64MAX < token_reserve + tokens_in then .error .MathOverflow
    else
      let new_token_reserve := token_reserve + tokens_in
      let new_sol_reserve := k / new_token_reserve % (U64MAX + 1)
      if sol_reserve < new_sol_reserve then .error .InsufficientLiquidity
      else
        let sol_out := sol_reserve - new_sol_reserve
        if U128MAX < sol_out * PROTOCOL_FEE_BPS then .error .MathOverflow
        else
          let fee_amount := sol_out * PROTOCOL_FEE_BPS / 10000
          if sol_out < fee_amount % (U64MAX + 1) then .error .MathOverflow
          else .ok (sol_out - fee_amount % (U64MAX + 1))

/-- `is_complete` from `constants.rs`: `sol_reserve >= TARGET_VIRTUAL_MC`. -/
def is_complete (sol_reserve : Nat) : Bool :=
  TARGET_VIRTUAL_MC ≤ sol_reserve

/-- `GlobalConfig` account from `state.rs`. `Pubkey` values are abstracted
as `Nat` identifiers. -/
structure GlobalConfig where
  authority : Nat
  treasury : Nat
  protocol_fee_bps : Nat
  creation_fee : Nat
  total_tokens_created : Nat
  treasury_bump : Nat
deriving DecidableEq, Repr

/-- `GlobalConfig::initialize` from `state.rs` (renamed `initConfig`). -/
def GlobalConfig.initConfig (authority treasury treasury_bump : Nat) :
    GlobalConfig :=
  { authority := authority
    treasury := treasury
    protocol_fee_bps := PROTOCOL_FEE_BPS
    creation_fee := CREATION_FEE
    total_tokens_created := 0
    treasury_bump := treasury_bump }

/-- `BondingCurve` account from `state.rs`. The `mint`, `creator` and `bump`
fields are identity bookkeeping with no effect on the dynamics modelled
here and are omitted. -/
structure BondingCurve where
  virtual_sol_reserve : Nat
  virtual_token_reserve : Nat
  real_sol_reserve : Nat
  tokens_sold : Nat
  completed : Bool
  created_at : Int
  completed_at : Option Int
deriving DecidableEq, Repr

/-- `BondingCurve::initialize` from `state.rs` (renamed `initCurve`). -/
def BondingCurve.initCurve (ts : Int) : BondingCurve :=
  { virtual_sol_reserve := INITIAL_VIRTUAL_SOL_RESERVE
    virtual_token_reserve := INITIAL_VIRTUAL_TOKEN_RESERVE
    real_sol_reserve := 0
    tokens_sold := 0
    completed := false
    created_at := ts
    completed_at := none }

/-- `BondingCurve::update_after_buy` from `state.rs`. Each `.expect`
(panicking `checked_add`/`checked_sub`) is modelled as `none`. -/
def BondingCurve.update_after_buy (c : BondingCurve) (sol_in tokens_out : Nat) :
    Option BondingCurve :=
  if U64MAX < c.virtual_sol_reserve + sol_in then none
  else if c.virtual_token_reserve < tokens_out then none
  else if U64MAX < c.real_sol_reserve + sol_in then none
  else if U64MAX < c.tokens_sold + tokens_out then none
  else some { c with
    virtual_sol_reserve := c.virtual_sol_reserve + sol_in
    virtual_token_reserve := c.virtual_token_reserve - tokens_out
    real_sol_reserve := c.real_sol_reserve + sol_in
    tokens_sold := c.tokens_sold + tokens_out }

/-- `BondingCurve::update_after_sell` from `state.rs`. Each `.expect`
(panicking `checked_sub`/`checked_add`) is modelled as `none`. -/
def BondingCurve.update_after_sell (c : BondingCurve) (tokens_in sol_out : Nat) :
    Option BondingCurve :=
  if c.virtual_sol_reserve < sol_out then none
  else if U64MAX < c.virtual_token_reserve + tokens_in then none
  else if c.real_sol_reserve < sol_out then none
  else if c.tokens_sold < tokens_in then none
  else some { c with
    virtual_sol_reserve := c.virtual_sol_reserve - sol_out
    virtual_token_reserve := c.virtual_token_reserve + tokens_in
    real_sol_reserve := c.real_sol_reserve - sol_out
    tokens_sold := c.tokens_sold - tokens_in }

/-- `BondingCurve::complete` from `state.rs`. -/
def BondingCurve.complete (c : BondingCurve) (ts : Int) : BondingCurve :=
  { c with completed := true, completed_at := some ts }

/-- `TokenBought` event from `buy.rs` (identity fields omitted). -/
structure TokenBought where
  sol_in : Nat
  tokens_out : Nat
  virtual_sol_reserve : Nat
  virtual_token_reserve : Nat
  completed : Bool
  timestamp : Int
deriving DecidableEq, Repr

/-- `TokenSold` event from `sell.rs` (identity fields omitted). -/
structure TokenSold where
  tokens_in : Nat
  sol_out : Nat
  virtual_sol_reserve : Nat
  virtual_token_reserve : Nat
  timestamp : Int
deriving DecidableEq, Repr

/-- The accounts a buy or sell touches besides the curve: the single
trader's token account (`buyer_token_account`/`seller_token_account`
amount), the trader's lamports, and the shared treasury PDA's lamports. -/
structure TradeState where
  curve : BondingCurve
  traderTokens : Nat
  traderLamports : Nat
  treasuryLamports : Nat
deriving DecidableEq, Repr

/-- Outcome of a handler, keeping the straight-line state at every exit:
`ok` for `Ok(())` with the emitted event, `err` for a returned
`PumpFunError` together with the mutations performed up to that point, and
`aborted` for a panic (a fired `.expect` in the state-update helpers). -/
inductive RunResult (E : Type) where
  | ok (s : TradeState) (ev : E)
  | err (s : TradeState) (e : PumpFunError)
  | aborted (s : TradeState)
deriving DecidableEq, Repr

/-- `Buy::execute` from `buy.rs`, preceded by the `#[derive(Accounts)]`
constraint `!bonding_curve.completed`. The SOL transfer debits the buyer
by `sol_in` and credits the treasury with the net portion plus the fee
portion (the full `sol_in`); the mint CPI credits the buyer's token
account; `update_after_buy` runs last, followed by the graduation check
and the event. -/
def buyRun (s : TradeState) (sol_in min_tokens_out : Nat) (ts : Int) :
    RunResult TokenBought :=
  if s.curve.completed then .err s .AlreadyCompleted
  else if sol_in < MIN_SOL_AMOUNT then .err s .MinSolAmountNotMet
  else if sol_in = 0 then .err s .InvalidAmount
  else
    match calculate_tokens_out sol_in s.curve.virtual_sol_reserve
        s.curve.virtual_token_reserve with
    | .error e => .err s e
    | .ok tokens_out =>
      if tokens_out < min_tokens_out then .err s .SlippageExceeded
      else if U128MAX < sol_in * PROTOCOL_FEE_BPS then .err s .MathOverflow
      else
        let protocol_fee := sol_in * PROTOCOL_FEE_BPS / 10000 % (U64MAX + 1)
        if sol_in < protocol_fee then .err s .MathOverflow
        else
          let sol_after_fee := sol_in - protocol_fee
          let s1 : TradeState :=
            { s with
              traderLamports := s.traderLamports - sol_in
              treasuryLamports := s.treasuryLamports + sol_after_fee + protocol_fee
              traderTokens := s.traderTokens + tokens_out }
          match s1.curve.update_after_buy sol_in tokens_out with
          | none => .aborted s1
          | some c1 =>
            let compl := is_complete c1.virtual_sol_reserve
            let c2 := if compl then c1.complete ts else c1
            .ok { s1 with curve := c2 }
              { sol_in := sol_in
                tokens_out := tokens_out
                virtual_sol_reserve := c2.virtual_sol_reserve
                virtual_token_reserve := c2.virtual_token_reserve
                completed := compl
                timestamp := ts }

/-- `Sell::execute` from `sell.rs`, preceded by the `#[derive(Accounts)]`
constraint `!bonding_curve.completed`. Note the order in the source: the
burn CPI (line 133) runs before the treasury-balance check (line 137), and
`update_after_sell` is called with `sol_out` (the quote) while only
`sol_after_fee` (the quote minus a second protocol fee) moves from the
treasury to the seller and is reported in the event. -/
def sellRun (s : TradeState) (tokens_in min_sol_out : Nat) (ts : Int) :
    RunResult TokenSold :=
  if s.curve.completed then .err s .AlreadyCompleted
  else if tokens_in = 0 then .err s .InvalidAmount
  else if s.traderTokens < tokens_in then .err s .InvalidAmount
  else
    match calculate_sol_out tokens_in s.curve.virtual_sol_reserve
        s.curve.virtual_token_reserve with
    | .error e => .err s e
    | .ok sol_out =>
      if sol_out < min_sol_out then .err s .SlippageExceeded
      else if U128MAX < sol_out * PROTOCOL_FEE_BPS then .err s .MathOverflow
      else
        let protocol_fee := sol_out * PROTOCOL_FEE_BPS / 10000 % (U64MAX + 1)
        if sol_out < protocol_fee then .err s .MathOverflow
        else
          let sol_after_fee := sol_out - protocol_fee
          let s1 : TradeState := { s with traderTokens := s.traderTokens - tokens_in }
          if s1.treasuryLamports < sol_after_fee then .err s1 .InsufficientLiquidity
          else
            let s2 : TradeState :=
              { s1 with
                treasuryLamports := s1.treasuryLamports - sol_after_fee
                traderLamports := s1.traderLamports + sol_after_fee }
            match s2.curve.update_after_sell tokens_in sol_out with
            | none => .aborted s2
            | some c1 =>
              .ok { s2 with curve := c1 }
                { tokens_in := tokens_in
                  sol_out := sol_after_fee
                  virtual_sol_reserve := c1.virtual_sol_reserve
                  virtual_token_reserve := c1.virtual_token_reserve
                  timestamp := ts }

/-- `Create::execute` from `create.rs`: checks the creation fee, moves it
from the creator to the treasury, and initialises the curve. It returns
the global config it read — the source takes `global_config` immutably and
never writes `total_tokens_created`. -/
def createRun (cfg : GlobalConfig) (creatorLamports treasuryLamports : Nat)
    (ts : Int) :
    Except PumpFunError (GlobalConfig × Nat × Nat × BondingCurve) :=
  if creatorLamports < cfg.creation_fee then .error .InsufficientCreationFee
  else .ok (cfg, creatorLamports - cfg.creation_fee,
    treasuryLamports + cfg.creation_fee, BondingCurve.initCurve ts)

/-- `Complete` from `complete.rs`: the account constraints check
`!completed` (else `AlreadyCompleted`) then `is_complete` (else
`NotCompleted`); `execute` re-checks `is_complete` and marks the curve
completed. -/
def completeRun (c : BondingCurve) (ts : Int) : Except PumpFunError BondingCurve :=
  if c.completed then .error .AlreadyCompleted
  else if ¬ is_complete c.virtual_sol_reserve then .error .NotCompleted
  else if ¬ is_complete c.virtual_sol_reserve then .error .NotCompleted
  else .ok (c.complete ts)

/-- State right after `createCurve`: a fresh curve, the trader (who is the
creator) holding no tokens and `L` lamports, and the treasury holding the
creation fee just paid. -/
def postCreate (ts : Int) (L : Nat) : TradeState :=
  { curve := BondingCurve.initCurve ts
    traderTokens := 0
    traderLamports := L
    treasuryLamports := CREATION_FEE }

/-- Curve states reachable from creation by one trader buying and selling
on the same curve (so every token the trader sells was minted by a buy on
this curve). `L` is the trader's starting lamport balance. -/
inductive Reach (L : Nat) : TradeState → Prop where
  | init (ts : Int) : Reach L (postCreate ts L)
  | buy (s s' : TradeState) (sol_in min_tokens_out : Nat) (ts : Int)
      (ev : TokenBought) : Reach L s →
      buyRun s sol_in min_tokens_out ts = .ok s' ev → Reach L s'
  | sell (s s' : TradeState) (tokens_in min_sol_out : Nat) (ts : Int)
      (ev : TokenSold) : Reach L s →
      sellRun s tokens_in min_sol_out ts = .ok s' ev → Reach L s'

/-! ## Arithmetic helper lemmas -/

theorem protocol_fee_div_le (x : Nat) : x * PROTOCOL_FEE_BPS / 10000 ≤ x := by
  calc x * PROTOCOL_FEE_BPS / 10000
      ≤ x * 10000 / 10000 :=
        Nat.div_le_div_right (Nat.mul_le_mul_left x (by norm_num [PROTOCOL_FEE_BPS]))
    _ = x := Nat.mul_div_cancel x (by norm_num)

theorem quot_le_reserve (amt res other : Nat) (h : 0 < res) :
    res * other / (res + amt) ≤ other := by
  have hd : res * other / (res + amt) ≤ res * other / res :=
    Nat.div_le_div_left (Nat.le_add_right res amt) h
  rwa [Nat.mul_div_cancel_left other h] at hd

theorem sub_fee_mono (a b : Nat) (hab : a ≤ b) :
    a - a * PROTOCOL_FEE_BPS / 10000 ≤ b - b * PROTOCOL_FEE_BPS / 10000 := by
  have hstep : b * PROTOCOL_FEE_BPS ≤ a * PROTOCOL_FEE_BPS + (b - a) * 10000 := by
    have hc : PROTOCOL_FEE_BPS ≤ 10000 := by norm_num [PROTOCOL_FEE_BPS]
    calc b * PROTOCOL_FEE_BPS
        = a * PROTOCOL_FEE_BPS + (b - a) * PROTOCOL_FEE_BPS := by
          rw [← Nat.add_mul, Nat.add_sub_cancel' hab]
      _ ≤ a * PROTOCOL_FEE_BPS + (b - a) * 10000 :=
          Nat.add_le_add_left (Nat.mul_le_mul (le_refl _) hc) _
  have h1 : b * PROTOCOL_FEE_BPS / 10000 ≤ a * PROTOCOL_FEE_BPS / 10000 + (b - a) := by
    calc b * PROTOCOL_FEE_BPS / 10000
        ≤ (a * PROTOCOL_FEE_BPS + (b - a) * 10000) / 10000 := Nat.div_le_div_right hstep
      _ = a * PROTOCOL_FEE_BPS / 10000 + (b - a) := by
          rw [Nat.add_mul_div_right _ _ (by norm_num : (0:Nat) < 10000)]
  have h2 := protocol_fee_div_le a
  omega

/-- On fully reduced `n * (q + fee)` versus `n * q + r` with `r < n`: adding a
positive fee to the quotient always overshoots, a zero fee never does. -/
theorem product_fee_core (n q r fee : Nat) (h : r < n) :
    (n * (q + fee) ≤ n * q + r ↔ fee = 0) ∧
    (n * q + r < n * (q + fee) ↔ 0 < fee) := by
  have hx : n * (q + fee) = n * q + n * fee := Nat.mul_add n q fee
  constructor
  · constructor
    · intro hle
      by_contra h0
      have h1 : n ≤ n * fee := Nat.le_mul_of_pos_right n (Nat.pos_of_ne_zero h0)
      omega
    · intro h0
      subst h0
      omega
  · constructor
    · intro hlt
      by_contra h0
      have h0' : fee = 0 := by omega
      subst h0'
      omega
    · intro h0
      have h1 : n ≤ n * fee := Nat.le_mul_of_pos_right n h0
      omega

/-! ## Closed forms and inversions for the pricing functions -/

/-- In the non-error case `calculate_tokens_out` is exactly
`raw - floor(raw * feeBps / 10000)` with
`raw = assetReserve - floor(k / (baseReserve + baseIn))`: all the `u64`
casts are no-ops and the remaining checked operations cannot fail. -/
theorem calculate_tokens_out_eq (sol_in sol_reserve token_reserve : Nat)
    (h1 : 0 < sol_in) (h2 : 0 < sol_reserve) (h3 : 0 < token_reserve)
    (h4 : token_reserve ≤ U64MAX) (h5 : sol_reserve + sol_in ≤ U64MAX) :
    calculate_tokens_out sol_in sol_reserve token_reserve =
      .ok ((token_reserve - sol_reserve * token_reserve / (sol_reserve + sol_in)) -
        (token_reserve - sol_reserve * token_reserve / (sol_reserve + sol_in)) *
          PROTOCOL_FEE_BPS / 10000) := by
  have hq : sol_reserve * token_reserve / (sol_reserve + sol_in) ≤ token_reserve :=
    quot_le_reserve sol_in sol_reserve token_reserve h2
  have hqmod : sol_reserve * token_reserve / (sol_reserve + sol_in) % (U64MAX + 1) =
      sol_reserve * token_reserve / (sol_reserve + sol_in) :=
    Nat.mod_eq_of_lt (Nat.lt_succ_of_le (hq.trans h4))
  have hraw : token_reserve - sol_reserve * token_reserve / (sol_reserve + sol_in) ≤ U64MAX :=
    le_trans (Nat.sub_le _ _) h4
  have hmul : (token_reserve - sol_reserve * token_reserve / (sol_reserve + sol_in)) *
      PROTOCOL_FEE_BPS ≤ U128MAX := by
    calc _ ≤ U64MAX * PROTOCOL_FEE_BPS := Nat.mul_le_mul hraw (le_refl _)
      _ ≤ U128MAX := by norm_num [U64MAX, U128MAX, PROTOCOL_FEE_BPS]
  have hfee := protocol_fee_div_le
    (token_reserve - sol_reserve * token_reserve / (sol_reserve + sol_in))
  have hfeemod : (token_reserve - sol_reserve * token_reserve / (sol_reserve + sol_in)) *
      PROTOCOL_FEE_BPS / 10000 % (U64MAX + 1) =
      (token_reserve - sol_reserve * token_reserve / (sol_reserve + sol_in)) *
        PROTOCOL_FEE_BPS / 10000 :=
    Nat.mod_eq_of_lt (Nat.lt_succ_of_le (hfee.trans hraw))
  simp only [calculate_tokens_out, calculate_k]
  rw [if_neg h1.ne', if_neg h2.ne', if_neg h3.ne', if_neg (not_lt.mpr h5), hqmod,
    if_neg (not_lt.mpr hq), hfeemod, if_neg (not_lt.mpr hmul), if_neg (not_lt.mpr hfee)]

/-- Closed form for `calculate_sol_out`, symmetric to
`calculate_tokens_out_eq`. -/
theorem calculate_sol_out_eq (tokens_in sol_reserve token_reserve : Nat)
    (h1 : 0 < tokens_in) (h2 : 0 < sol_reserve) (h3 : 0 < token_reserve)
    (h4 : sol_reserve ≤ U64MAX) (h5 : token_reserve + tokens_in ≤ U64MAX) :
    calculate_sol_out tokens_in sol_reserve token_reserve =
      .ok ((sol_reserve - sol_reserve * token_reserve / (token_reserve + tokens_in)) -
        (sol_reserve - sol_reserve * token_reserve / (token_reserve + tokens_in)) *
          PROTOCOL_FEE_BPS / 10000) := by
  have hq : sol_reserve * token_reserve / (token_reserve + tokens_in) ≤ sol_reserve := by
    have := quot_le_reserve tokens_in token_reserve sol_reserve h3
    rwa [Nat.mul_comm] at this
  have hqmod : sol_reserve * token_reserve / (token_reserve + tokens_in) % (U64MAX + 1) =
      sol_reserve * token_reserve / (token_reserve + tokens_in) :=
    Nat.mod_eq_of_lt (Nat.lt_succ_of_le (hq.trans h4))
  have hraw : sol_reserve - sol_reserve * token_reserve / (token_reserve + tokens_in) ≤ U64MAX :=
    le_trans (Nat.sub_le _ _) h4
  have hmul : (sol_reserve - sol_reserve * token_reserve / (token_reserve + tokens_in)) *
      PROTOCOL_FEE_BPS ≤ U128MAX := by
    calc _ ≤ U64MAX * PROTOCOL_FEE_BPS := Nat.mul_le_mul hraw (le_refl _)
      _ ≤ U128MAX := by norm_num [U64MAX, U128MAX, PROTOCOL_FEE_BPS]
  have hfee := protocol_fee_div_le
    (sol_reserve - sol_reserve * token_reserve / (token_reserve + tokens_in))
  have hfeemod : (sol_reserve - sol_reserve * token_reserve / (token_reserve + tokens_in)) *
      PROTOCOL_FEE_BPS / 10000 % (U64MAX + 1) =
      (sol_reserve - sol_reserve * token_reserve / (token_reserve + tokens_in)) *
        PROTOCOL_FEE_BPS / 10000 :=
    Nat.mod_eq_of_lt (Nat.lt_succ_of_le (hfee.trans hraw))
  simp only [calculate_sol_out, calculate_k]
  rw [if_neg h1.ne', if_neg h2.ne', if_neg h3.ne', if_neg (not_lt.mpr h5), hqmod,
    if_neg (not_lt.mpr hq), hfeemod, if_neg (not_lt.mpr hmul), if_neg (not_lt.mpr hfee)]

theorem calculate_sol_out_pos {tokens_in sol_reserve token_reserve o : Nat}
    (h : calculate_sol_out tokens_in sol_reserve token_reserve = .ok o) :
    0 < tokens_in ∧ 0 < sol_reserve ∧ 0 < token_reserve ∧
      token_reserve + tokens_in ≤ U64MAX := by
  have h1 : tokens_in ≠ 0 := fun hz => by simp [calculate_sol_out, hz] at h
  have h2 : sol_reserve ≠ 0 := fun hz => by simp [calculate_sol_out, h1, hz] at h
  have h3 : token_reserve ≠ 0 := fun hz => by simp [calculate_sol_out, h1, h2, hz] at h
  have h4 : ¬ (U64MAX < token_reserve + tokens_in) := fun hlt => by
    simp [calculate_sol_out, h1, h2, h3, hlt] at h
  exact ⟨Nat.pos_of_ne_zero h1, Nat.pos_of_ne_zero h2, Nat.pos_of_ne_zero h3,
    not_lt.mp h4⟩

theorem calculate_tokens_out_pos {sol_in sol_reserve token_reserve o : Nat}
    (h : calculate_tokens_out sol_in sol_reserve token_reserve = .ok o) :
    0 < sol_in ∧ 0 < sol_reserve ∧ 0 < token_reserve ∧
      sol_reserve + sol_in ≤ U64MAX := by
  have h1 : sol_in ≠ 0 := fun hz => by simp [calculate_tokens_out, hz] at h
  have h2 : sol_reserve ≠ 0 := fun hz => by simp [calculate_tokens_out, h1, hz] at h
  have h3 : token_reserve ≠ 0 := fun hz => by simp [calculate_tokens_out, h1, h2, hz] at h
  have h4 : ¬ (U64MAX < sol_reserve + sol_in) := fun hlt => by
    simp [calculate_tokens_out, h1, h2, h3, hlt] at h
  exact ⟨Nat.pos_of_ne_zero h1, Nat.pos_of_ne_zero h2, Nat.pos_of_ne_zero h3,
    not_lt.mp h4⟩

/-! ## Inversions for the state-update helpers and the handlers -/

theorem update_after_buy_some {c : BondingCurve} {a tout : Nat} {c1 : BondingCurve}
    (h : c.update_after_buy a tout = some c1) :
    c.virtual_sol_reserve + a ≤ U64MAX ∧ tout ≤ c.virtual_token_reserve ∧
    c.real_sol_reserve + a ≤ U64MAX ∧ c.tokens_sold + tout ≤ U64MAX ∧
    c1 = { c with
      virtual_sol_reserve := c.virtual_sol_reserve + a
      virtual_token_reserve := c.virtual_token_reserve - tout
      real_sol_reserve := c.real_sol_reserve + a
      tokens_sold := c.tokens_sold + tout } := by
  simp only [BondingCurve.update_after_buy] at h
  split at h
  · exact absurd h (by simp)
  next h1 =>
  split at h
  · exact absurd h (by simp)
  next h2 =>
  split at h
  · exact absurd h (by simp)
  next h3 =>
  split at h
  · exact absurd h (by simp)
  next h4 =>
  injection h with h5
  exact ⟨le_of_not_lt h1, le_of_not_lt h2, le_of_not_lt h3, le_of_not_lt h4, h5.symm⟩

theorem update_after_sell_some {c : BondingCurve} {tin so : Nat} {c1 : BondingCurve}
    (h : c.update_after_sell tin so = some c1) :
    so ≤ c.virtual_sol_reserve ∧ c.virtual_token_reserve + tin ≤ U64MAX ∧
    so ≤ c.real_sol_reserve ∧ tin ≤ c.tokens_sold ∧
    c1 = { c with
      virtual_sol_reserve := c.virtual_sol_reserve - so
      virtual_token_reserve := c.virtual_token_reserve + tin
      real_sol_reserve := c.real_sol_reserve - so
      tokens_sold := c.tokens_sold - tin } := by
  simp only [BondingCurve.update_after_sell] at h
  split at h
  · exact absurd h (by simp)
  next h1 =>
  split at h
  · exact absurd h (by simp)
  next h2 =>
  split at h
  · exact absurd h (by simp)
  next h3 =>
  split at h
  · exact absurd h (by simp)
  next h4 =>
  injection h with h5
  exact ⟨le_of_not_lt h1, le_of_not_lt h2, le_of_not_lt h3, le_of_not_lt h4, h5.symm⟩

/-- Everything a successful `sellRun` tells us, read off the straight-line
shape of `Sell::execute`. -/
theorem sellRun_ok_inv {s : TradeState} {tin m : Nat} {ts : Int}
    {s' : TradeState} {ev : TokenSold} (h : sellRun s tin m ts = .ok s' ev) :
    s.curve.completed = false ∧ 0 < tin ∧ tin ≤ s.traderTokens ∧
    ∃ q saf, calculate_sol_out tin s.curve.virtual_sol_reserve
        s.curve.virtual_token_reserve = .ok q ∧
      saf = q - q * PROTOCOL_FEE_BPS / 10000 % (U64MAX + 1) ∧
      saf ≤ s.treasuryLamports ∧
      s.curve.update_after_sell tin q = some s'.curve ∧
      s'.traderTokens = s.traderTokens - tin ∧
      s'.traderLamports = s.traderLamports + saf ∧
      s'.treasuryLamports = s.treasuryLamports - saf ∧
      ev = { tokens_in := tin, sol_out := saf,
             virtual_sol_reserve := s'.curve.virtual_sol_reserve,
             virtual_token_reserve := s'.curve.virtual_token_reserve,
             timestamp := ts } := by
  simp only [sellRun] at h
  split at h
  · exact absurd h (by simp)
  next hcompl =>
  split at h
  · exact absurd h (by simp)
  next htin0 =>
  split at h
  · exact absurd h (by simp)
  next hbal =>
  split at h
  · exact absurd h (by simp)
  next q hq =>
  split at h
  · exact absurd h (by simp)
  next hslip =>
  split at h
  · exact absurd h (by simp)
  next hmul =>
  split at h
  · exact absurd h (by simp)
  next hfee =>
  split at h
  · exact absurd h (by simp)
  next htreas =>
  split at h
  · exact absurd h (by simp)
  next c1 hupd =>
  obtain ⟨hs, hev⟩ : _ ∧ _ := by
    injection h with h1 h2
    exact ⟨h1.symm, h2.symm⟩
  refine ⟨Bool.not_eq_true _ |>.mp hcompl, Nat.pos_of_ne_zero htin0,
    le_of_not_lt hbal, q, _, hq, rfl, le_of_not_lt htreas, ?_, ?_, ?_, ?_, ?_⟩
  · rw [hs]; exact hupd
  · rw [hs]
  · rw [hs]
  · rw [hs]
  · rw [hev, hs]

/-- Everything a successful `buyRun` tells us, read off the straight-line
shape of `Buy::execute`. -/
theorem buyRun_ok_inv {s : TradeState} {a m : Nat} {ts : Int}
    {s' : TradeState} {ev : TokenBought} (h : buyRun s a m ts = .ok s' ev) :
    s.curve.completed = false ∧ MIN_SOL_AMOUNT ≤ a ∧
    ∃ tokens_out c1,
      calculate_tokens_out a s.curve.virtual_sol_reserve
        s.curve.virtual_token_reserve = .ok tokens_out ∧
      m ≤ tokens_out ∧
      s.curve.update_after_buy a tokens_out = some c1 ∧
      s'.curve = (if is_complete c1.virtual_sol_reserve then c1.complete ts else c1) ∧
      s'.traderTokens = s.traderTokens + tokens_out ∧
      s'.traderLamports = s.traderLamports - a ∧
      s'.treasuryLamports = s.treasuryLamports + a ∧
      ev = { sol_in := a, tokens_out := tokens_out,
             virtual_sol_reserve := s'.curve.virtual_sol_reserve,
             virtual_token_reserve := s'.curve.virtual_token_reserve,
             completed := is_complete c1.virtual_sol_reserve,
             timestamp := ts } := by
  simp only [buyRun] at h
  split at h
  · exact absurd h (by simp)
  next hcompl =>
  split at h
  · exact absurd h (by simp)
  next hmin =>
  split at h
  · exact absurd h (by simp)
  next ha0 =>
  split at h
  · exact absurd h (by simp)
  next tout hcalc =>
  split at h
  · exact absurd h (by simp)
  next hslip =>
  split at h
  · exact absurd h (by simp)
  next hmul =>
  split at h
  · exact absurd h (by simp)
  next hpf =>
  split at h
  · exact absurd h (by simp)
  next c1 hupd =>
  obtain ⟨hs, hev⟩ : _ ∧ _ := by
    injection h with h1 h2
    exact ⟨h1.symm, h2.symm⟩
  have hpf' : a * PROTOCOL_FEE_BPS / 10000 % (U64MAX + 1) ≤ a := le_of_not_lt hpf
  have hcurve : s'.curve = (if is_complete c1.virtual_sol_reserve
      then c1.complete ts else c1) := by
    rw [hs]
  refine ⟨Bool.not_eq_true _ |>.mp hcompl, le_of_not_lt hmin, tout, c1, hcalc,
    le_of_not_lt hslip, hupd, hcurve, ?_, ?_, ?_, ?_⟩
  · rw [hs]
  · rw [hs]
  · rw [hs]; simp only []; omega
  · rw [hev, hcurve]

/-- Every error exit of `Buy::execute` happens before any state change. -/
theorem buyRun_err_inv {s : TradeState} {a m : Nat} {ts : Int}
    {s' : TradeState} {e : PumpFunError} (h : buyRun s a m ts = .err s' e) :
    s' = s := by
  simp only [buyRun] at h
  split at h
  · injection h with h1 _; exact h1.symm
  split at h
  · injection h with h1 _; exact h1.symm
  split at h
  · injection h with h1 _; exact h1.symm
  split at h
  · injection h with h1 _; exact h1.symm
  split at h
  · injection h with h1 _; exact h1.symm
  split at h
  · injection h with h1 _; exact h1.symm
  split at h
  · injection h with h1 _; exact h1.symm
  split at h
  · exact absurd h (by simp)
  · exact absurd h (by simp)

/-- Error exits of `Sell::execute` never touch the curve record or any
lamports, but the `InsufficientLiquidity` exit at the treasury check comes
after the burn CPI, so only the seller's token balance may have changed. -/
theorem sellRun_err_inv {s : TradeState} {tin m : Nat} {ts : Int}
    {s' : TradeState} {e : PumpFunError} (h : sellRun s tin m ts = .err s' e) :
    s'.curve = s.curve ∧ s'.traderLamports = s.traderLamports ∧
    s'.treasuryLamports = s.treasuryLamports ∧
    (s' = s ∨ (e = .InsufficientLiquidity ∧
      s' = { s with traderTokens := s.traderTokens - tin })) := by
  simp only [sellRun] at h
  split at h
  · injection h with h1 _; exact h1 ▸ ⟨rfl, rfl, rfl, Or.inl rfl⟩
  split at h
  · injection h with h1 _; exact h1 ▸ ⟨rfl, rfl, rfl, Or.inl rfl⟩
  split at h
  · injection h with h1 _; exact h1 ▸ ⟨rfl, rfl, rfl, Or.inl rfl⟩
  split at h
  · injection h with h1 _; exact h1 ▸ ⟨rfl, rfl, rfl, Or.inl rfl⟩
  split at h
  · injection h with h1 _; exact h1 ▸ ⟨rfl, rfl, rfl, Or.inl rfl⟩
  split at h
  · injection h with h1 _; exact h1 ▸ ⟨rfl, rfl, rfl, Or.inl rfl⟩
  split at h
  · injection h with h1 _; exact h1 ▸ ⟨rfl, rfl, rfl, Or.inl rfl⟩
  split at h
  · injection h with h1 h2; exact h1 ▸ ⟨rfl, rfl, rfl, Or.inr ⟨h2.symm, h1 ▸ rfl⟩⟩
  split at h
  · exact absurd h (by simp)
  · exact absurd h (by simp)

/-! ## Reachability invariants and iterated single-token sells -/

/-- Along every reachable state: tokens sold plus the remaining virtual
token reserve equals the initial virtual token reserve, and the single
trader's token balance equals `tokens_sold`. -/
theorem reach_inv {L : Nat} {s : TradeState} (h : Reach L s) :
    s.curve.tokens_sold + s.curve.virtual_token_reserve =
      INITIAL_VIRTUAL_TOKEN_RESERVE ∧
    s.traderTokens = s.curve.tokens_sold := by
  induction h with
  | init ts => simp [postCreate, BondingCurve.initCurve]
  | buy s s' a m ts ev hr hb ih =>
      obtain ⟨hcompl, hmin, tout, c1, hcalc, hslip, hupd, hcurve, htok, hlam,
        htreas, hev⟩ := buyRun_ok_inv hb
      obtain ⟨hb1, hb2, hb3, hb4, hc1⟩ := update_after_buy_some hupd
      have hfields : s'.curve.tokens_sold = c1.tokens_sold ∧
          s'.curve.virtual_token_reserve = c1.virtual_token_reserve := by
        rw [hcurve]
        by_cases hcp : is_complete c1.virtual_sol_reserve
        · simp [hcp, BondingCurve.complete]
        · simp [hcp]
      rw [htok, hfields.1, hfields.2, hc1]
      simp only []
      omega
  | sell s s' tin m ts ev hr hs ih =>
      obtain ⟨hcompl, htin, hbal, q, saf, hq, hsaf, htr, hupd, htok, hlam,
        htreas, hev⟩ := sellRun_ok_inv hs
      obtain ⟨hs1, hs2, hs3, hs4, hc1⟩ := update_after_sell_some hupd
      rw [htok, hc1]
      simp only []
      omega

theorem unit_div (vs vt : Nat) (h1 : 1 ≤ vs) (h2 : vs ≤ vt + 1) :
    vs * vt / (vt + 1) = vs - 1 := by
  obtain ⟨v, rfl⟩ : ∃ v, vs = v + 1 := ⟨vs - 1, by omega⟩
  have hv : v ≤ vt := by omega
  obtain ⟨d, rfl⟩ := Nat.le.dest hv
  have heq : (v + 1) * (v + d) = d + v * ((v + d) + 1) := by ring
  rw [heq, Nat.add_mul_div_right _ _ (Nat.succ_pos (v + d)),
    Nat.div_eq_of_lt (by omega)]
  omega

/-- Selling a single token when `virtual_sol_reserve ≤ virtual_token_reserve + 1`
quotes exactly one lamport (the fee floors to zero). -/
theorem calculate_sol_out_one (vs vt : Nat) (h1 : 1 ≤ vs) (h2 : vs ≤ vt + 1)
    (h3 : 0 < vt) (h4 : vs ≤ U64MAX) (h5 : vt + 1 ≤ U64MAX) :
    calculate_sol_out 1 vs vt = .ok 1 := by
  have h := calculate_sol_out_eq 1 vs vt Nat.one_pos (by omega) h3 h4 h5
  rw [unit_div vs vt h1 h2] at h
  have hr : vs - (vs - 1) = 1 := by omega
  rw [hr] at h
  norm_num [PROTOCOL_FEE_BPS] at h
  exact h

/-- A single-token sell in the cheap-token regime moves every balance by
exactly one: one lamport out of the virtual, real and treasury balances and
one token back into the reserve. -/
theorem sellRun_one (s : TradeState) (ts : Int)
    (hc : s.curve.completed = false)
    (htok : 1 ≤ s.traderTokens)
    (hvs1 : 1 ≤ s.curve.virtual_sol_reserve)
    (hvs : s.curve.virtual_sol_reserve ≤ s.curve.virtual_token_reserve + 1)
    (hvt0 : 0 < s.curve.virtual_token_reserve)
    (hvsU : s.curve.virtual_sol_reserve ≤ U64MAX)
    (hvtU : s.curve.virtual_token_reserve + 1 ≤ U64MAX)
    (htr : 1 ≤ s.treasuryLamports)
    (hreal : 1 ≤ s.curve.real_sol_reserve)
    (hsold : 1 ≤ s.curve.tokens_sold) :
    sellRun s 1 0 ts = .ok
      { curve := { s.curve with
          virtual_sol_reserve := s.curve.virtual_sol_reserve - 1
          virtual_token_reserve := s.curve.virtual_token_reserve + 1
          real_sol_reserve := s.curve.real_sol_reserve - 1
          tokens_sold := s.curve.tokens_sold - 1 }
        traderTokens := s.traderTokens - 1
        traderLamports := s.traderLamports + 1
        treasuryLamports := s.treasuryLamports - 1 }
      { tokens_in := 1, sol_out := 1,
        virtual_sol_reserve := s.curve.virtual_sol_reserve - 1,
        virtual_token_reserve := s.curve.virtual_token_reserve + 1,
        timestamp := ts } := by
  have hcalc := calculate_sol_out_one s.curve.virtual_sol_reserve
    s.curve.virtual_token_reserve hvs1 hvs hvt0 hvsU hvtU
  simp only [sellRun, hc, Bool.false_eq_true, if_false, hcalc]
  rw [if_neg (by omega : ¬ (1 = 0)), if_neg (not_lt.mpr htok)]
  norm_num [PROTOCOL_FEE_BPS, U128MAX, U64MAX]
  rw [if_neg (by omega : ¬ s.treasuryLamports = 0)]
  simp only [BondingCurve.update_after_sell]
  rw [if_neg (not_lt.mpr hvs1), if_neg (not_lt.mpr hvtU),
    if_neg (not_lt.mpr hreal), if_neg (not_lt.mpr hsold)]
  simp [hc]

/-- The state after `N` consecutive single-token sells. -/
def afterUnitSells (s : TradeState) (N : Nat) : TradeState where
  curve := { s.curve with
    virtual_sol_reserve := s.curve.virtual_sol_reserve - N
    virtual_token_reserve := s.curve.virtual_token_reserve + N
    real_sol_reserve := s.curve.real_sol_reserve - N
    tokens_sold := s.curve.tokens_sold - N }
  traderTokens := s.traderTokens - N
  traderLamports := s.traderLamports + N
  treasuryLamports := s.treasuryLamports - N

/-- `N` consecutive single-token sells stay inside `Reach` and have the
closed form `afterUnitSells`. -/
theorem reach_unit_sells (L : Nat) : ∀ (N : Nat) (s : TradeState), Reach L s →
    s.curve.completed = false →
    s.curve.virtual_sol_reserve ≤ s.curve.virtual_token_reserve + 1 →
    0 < s.curve.virtual_token_reserve →
    s.curve.virtual_sol_reserve ≤ U64MAX →
    s.curve.virtual_token_reserve + N ≤ U64MAX →
    N ≤ s.curve.virtual_sol_reserve - 1 →
    N ≤ s.curve.real_sol_reserve →
    N ≤ s.curve.tokens_sold →
    N ≤ s.traderTokens →
    N ≤ s.treasuryLamports →
    Reach L (afterUnitSells s N) := by
  intro N
  induction N with
  | zero =>
      intro s hr _ _ _ _ _ _ _ _ _ _
      simpa [afterUnitSells] using hr
  | succ n ih =>
      intro s hr hc hvs hvt0 hvsU hvtU hvsN hrealN hsoldN htokN htrN
      have hstep := sellRun_one s 0 hc (by omega) (by omega) hvs hvt0 hvsU
        (by omega) (by omega) (by omega) (by omega)
      have hr1 := Reach.sell s _ 1 0 0 _ hr hstep
      have hres := ih _ hr1 (by simp [hc]) (by simp only []; omega)
        (by simp only []; omega) (by simp only []; omega)
        (by simp only []; omega) (by simp only []; omega)
        (by simp only []; omega) (by simp only []; omega)
        (by simp only []; omega) (by simp only []; omega)
      have heq : afterUnitSells
          { curve := { s.curve with
              virtual_sol_reserve := s.curve.virtual_sol_reserve - 1
              virtual_token_reserve := s.curve.virtual_token_reserve + 1
              real_sol_reserve := s.curve.real_sol_reserve - 1
              tokens_sold := s.curve.tokens_sold - 1 }
            traderTokens := s.traderTokens - 1
            traderLamports := s.traderLamports + 1
            treasuryLamports := s.treasuryLamports - 1 } n =
          afterUnitSells s (n + 1) := by
        simp only [afterUnitSells, TradeState.mk.injEq, BondingCurve.mk.injEq]
        refine ⟨⟨?_, ?_, ?_, ?_, trivial, trivial, trivial⟩, ?_, ?_, ?_⟩ <;> omega
      rw [← heq]
      exact hres

/-! ## Concrete states used by the claims -/

/-- Fresh curve with the trader holding 1 SOL, for the concrete scenario. -/
def C1state : TradeState := postCreate 0 1000000000

/-- Result of `buy(1 SOL)` on the fresh curve. -/
def C1stateAfter : TradeState where
  curve := { virtual_sol_reserve := 31000000000
             virtual_token_reserve := 767547258064515
             real_sol_reserve := 1000000000
             tokens_sold := 25452741935485
             completed := false
             created_at := 0
             completed_at := none }
  traderTokens := 25452741935485
  traderLamports := 0
  treasuryLamports := 1020000000

/-- Event of `buy(1 SOL)` on the fresh curve. -/
def C1event : TokenBought where
  sol_in := 1000000000
  tokens_out := 25452741935485
  virtual_sol_reserve := 31000000000
  virtual_token_reserve := 767547258064515
  completed := false
  timestamp := 0

/-- A mid-life curve state used to exhibit the sell payout. -/
def C2state : TradeState where
  curve := { virtual_sol_reserve := 31000000000
             virtual_token_reserve := 792200000000000
             real_sol_reserve := 1000000000
             tokens_sold := 800000000000
             completed := false
             created_at := 0
             completed_at := none }
  traderTokens := 800000000000
  traderLamports := 0
  treasuryLamports := 19400000

/-- Result of selling 500e9 token units from `C2state`. -/
def C2stateAfter : TradeState where
  curve := { virtual_sol_reserve := 30980544341
             virtual_token_reserve := 792700000000000
             real_sol_reserve := 980544341
             tokens_sold := 300000000000
             completed := false
             created_at := 0
             completed_at := none }
  traderTokens := 300000000000
  traderLamports := 19358381
  treasuryLamports := 41619

/-- Event of selling 500e9 token units from `C2state`. -/
def C2event : TokenSold where
  tokens_in := 500000000000
  sol_out := 19358381
  virtual_sol_reserve := 30980544341
  virtual_token_reserve := 792700000000000
  timestamp := 0

/-- A fresh curve where the seller holds tokens but the treasury is empty. -/
def C3state : TradeState where
  curve := BondingCurve.initCurve 0
  traderTokens := 1000000
  traderLamports := 0
  treasuryLamports := 0

/-- A curve one minimum buy below the graduation threshold. -/
def C6state : TradeState where
  curve := { virtual_sol_reserve := 499999000000
             virtual_token_reserve := 1000000000
             real_sol_reserve := 0
             tokens_sold := 0
             completed := false
             created_at := 0
             completed_at := none }
  traderTokens := 0
  traderLamports := 1000000
  treasuryLamports := 0

/-- Result of the graduating buy from `C6state`. -/
def C6stateAfter : TradeState where
  curve := { virtual_sol_reserve := 500000000000
             virtual_token_reserve := 999998010
             real_sol_reserve := 1000000
             tokens_sold := 1990
             completed := true
             created_at := 0
             completed_at := some 7 }
  traderTokens := 1990
  traderLamports := 0
  treasuryLamports := 1000000

/-- Event of the graduating buy from `C6state`. -/
def C6event : TokenBought where
  sol_in := 1000000
  tokens_out := 1990
  virtual_sol_reserve := 500000000000
  virtual_token_reserve := 999998010
  completed := true
  timestamp := 7

/-- An already-completed curve. -/
def C8done : BondingCurve where
  virtual_sol_reserve := 600000000000
  virtual_token_reserve := 1000000000
  real_sol_reserve := 0
  tokens_sold := 0
  completed := true
  created_at := 0
  completed_at := some 1

/-- An active curve one lamport below the graduation threshold. -/
def C8low : BondingCurve where
  virtual_sol_reserve := 499999999999
  virtual_token_reserve := 1000000000
  real_sol_reserve := 0
  tokens_sold := 0
  completed := false
  created_at := 0
  completed_at := none

/-- An active curve exactly at the graduation threshold. -/
def C8ready : BondingCurve where
  virtual_sol_reserve := 500000000000
  virtual_token_reserve := 1000000000
  real_sol_reserve := 0
  tokens_sold := 0
  completed := false
  created_at := 0
  completed_at := none

/-- Fresh curve with the trader holding exactly the minimum buy. -/
def S0c10 : TradeState := postCreate 0 1000000

/-- State after `buy(0.001 SOL)` from `S0c10`. -/
def S1c10 : TradeState where
  curve := { virtual_sol_reserve := 30001000000
             virtual_token_reserve := 792973699710009
             real_sol_reserve := 1000000
             tokens_sold := 26300289991
             completed := false
             created_at := 0
             completed_at := none }
  traderTokens := 26300289991
  traderLamports := 0
  treasuryLamports := 21000000

/-- Event of `buy(0.001 SOL)` from `S0c10`. -/
def EV1c10 : TokenBought where
  sol_in := 1000000
  tokens_out := 26300289991
  virtual_sol_reserve := 30001000000
  virtual_token_reserve := 792973699710009
  completed := false
  timestamp := 0

/-- State after 999999 further single-token sells: the real reserve is
down to a single lamport. -/
def S3c10 : TradeState where
  curve := { virtual_sol_reserve := 30000000001
             virtual_token_reserve := 792973700710008
             real_sol_reserve := 1
             tokens_sold := 26299289992
             completed := false
             created_at := 0
             completed_at := none }
  traderTokens := 26299289992
  traderLamports := 999999
  treasuryLamports := 20000001

/-- Straight-line state at the moment the final sell panics: the burn and
the treasury transfer have been applied, `update_after_sell` has not. -/
def SXc10 : TradeState :=
  { S3c10 with traderTokens := 26299263559
               traderLamports := 1000001
               treasuryLamports := 19999999 }

/-! ## Claims -/

/-- C1: for every `baseIn > 0` and positive `u64` reserves, `quoteBuy`
(`calculate_tokens_out`) returns exactly
`rawAssetOut - floor(rawAssetOut * feeBps / 10000)` with
`rawAssetOut = assetReserve - floor(k / (baseReserve + baseIn))`, failing
`MathOverflow` when `baseReserve + baseIn` wraps `u64`; in the concrete
seed state (30 SOL / 793e12 tokens, 50 bps) a buy of 1 SOL returns
25452741935485, which is strictly below the asset reserve, and the buy
sets `tokens_sold` to exactly that value. -/
theorem C1_quote_buy_formula :
    (∀ baseIn baseReserve assetReserve : Nat,
      0 < baseIn → 0 < baseReserve → 0 < assetReserve → assetReserve ≤ U64MAX →
      (baseReserve + baseIn ≤ U64MAX →
        calculate_tokens_out baseIn baseReserve assetReserve =
          .ok ((assetReserve - baseReserve * assetReserve / (baseReserve + baseIn)) -
            (assetReserve - baseReserve * assetReserve / (baseReserve + baseIn)) *
              PROTOCOL_FEE_BPS / 10000)) ∧
      (U64MAX < baseReserve + baseIn →
        calculate_tokens_out baseIn baseReserve assetReserve =
          .error .MathOverflow)) ∧
    calculate_tokens_out 1000000000 30000000000 793000000000000 =
      .ok 25452741935485 ∧
    (25452741935485 : Nat) < 793000000000000 ∧
    buyRun C1state 1000000000 0 0 = .ok C1stateAfter C1event ∧
    C1stateAfter.curve.tokens_sold = 25452741935485 := by
  refine ⟨?_, by decide, by norm_num, by decide, by decide⟩
  intro baseIn baseReserve assetReserve h1 h2 h3 h4
  constructor
  · intro h5
    exact calculate_tokens_out_eq baseIn baseReserve assetReserve h1 h2 h3 h4 h5
  · intro hover
    simp only [calculate_tokens_out]
    rw [if_neg h1.ne', if_neg h2.ne', if_neg h3.ne', if_pos hover]

/-- Witness for C1 at `baseIn = 1 SOL` on the seed reserves. -/
theorem C1_quote_buy_formula_witness :
    0 < (1000000000 : Nat) ∧
    calculate_tokens_out 1000000000 30000000000 793000000000000 =
      .ok ((793000000000000 -
          30000000000 * 793000000000000 / (30000000000 + 1000000000)) -
        (793000000000000 -
          30000000000 * 793000000000000 / (30000000000 + 1000000000)) *
          PROTOCOL_FEE_BPS / 10000) :=
  ⟨by norm_num,
    ((C1_quote_buy_formula.1 1000000000 30000000000 793000000000000
      (by norm_num) (by norm_num) (by norm_num) (by decide)).1 (by decide))⟩

/-- C2 counterexample: a successful sell quoted `baseOut = 19455659` by
`calculate_sol_out`, but the treasury paid out only `19358381` (a second
protocol fee was deducted), the event reported `19358381`, and the sell
succeeded although the treasury balance `19400000` was below the quoted
`baseOut`. -/
theorem C2_sell_payout_counterexample :
    calculate_sol_out 500000000000 31000000000 792200000000000 =
      .ok 19455659 ∧
    sellRun C2state 500000000000 0 0 = .ok C2stateAfter C2event ∧
    C2event.sol_out = 19358381 ∧ (19358381 : Nat) ≠ 19455659 ∧
    C2state.treasuryLamports < 19455659 ∧
    C2state.treasuryLamports - C2stateAfter.treasuryLamports = 19358381 ∧
    C2stateAfter.traderLamports - C2state.traderLamports = 19358381 := by
  refine ⟨by decide, by decide, by decide, by norm_num, by decide, by decide,
    by decide⟩

/-- C2 (amended): for every successful sell, the base amount transferred
from the treasury to the seller equals
`baseOut - floor(baseOut * feeBps / 10000)` where `baseOut` is the
(already fee-adjusted) output of `quoteSell`; the treasury-balance
precondition and the `TokenSold` notification both use this same net
amount. -/
theorem C2_sell_payout_double_fee (s : TradeState) (tin m : Nat) (ts : Int)
    (s' : TradeState) (ev : TokenSold)
    (hvsU : s.curve.virtual_sol_reserve ≤ U64MAX)
    (h : sellRun s tin m ts = .ok s' ev) :
    ∃ q, calculate_sol_out tin s.curve.virtual_sol_reserve
        s.curve.virtual_token_reserve = .ok q ∧
      s'.traderLamports = s.traderLamports + (q - q * PROTOCOL_FEE_BPS / 10000) ∧
      s'.treasuryLamports + (q - q * PROTOCOL_FEE_BPS / 10000) =
        s.treasuryLamports ∧
      q - q * PROTOCOL_FEE_BPS / 10000 ≤ s.treasuryLamports ∧
      ev.sol_out = q - q * PROTOCOL_FEE_BPS / 10000 := by
  obtain ⟨hcompl, htin, hbal, q, saf, hq, hsaf, htr, hupd, htok, hlam,
    htreas, hev⟩ := sellRun_ok_inv h
  obtain ⟨h0t, h0s, h0r, hU⟩ := calculate_sol_out_pos hq
  have hqeq := calculate_sol_out_eq tin s.curve.virtual_sol_reserve
    s.curve.virtual_token_reserve h0t h0s h0r hvsU hU
  rw [hq] at hqeq
  have hqval : q ≤ U64MAX := by
    injection hqeq with h1
    have := Nat.sub_le s.curve.virtual_sol_reserve
      (s.curve.virtual_sol_reserve * s.curve.virtual_token_reserve /
        (s.curve.virtual_token_reserve + tin))
    omega
  have hmod : q * PROTOCOL_FEE_BPS / 10000 % (U64MAX + 1) =
      q * PROTOCOL_FEE_BPS / 10000 :=
    Nat.mod_eq_of_lt (Nat.lt_succ_of_le ((protocol_fee_div_le q).trans hqval))
  rw [hmod] at hsaf
  subst hsaf
  refine ⟨q, hq, hlam, ?_, htr, by rw [hev]⟩
  rw [htreas]
  omega

/-- Witness for C2 (amended) at the concrete sell from `C2state`. -/
theorem C2_sell_payout_witness :
    ∃ q, calculate_sol_out 500000000000 C2state.curve.virtual_sol_reserve
        C2state.curve.virtual_token_reserve = .ok q ∧
      C2stateAfter.traderLamports =
        C2state.traderLamports + (q - q * PROTOCOL_FEE_BPS / 10000) ∧
      C2stateAfter.treasuryLamports + (q - q * PROTOCOL_FEE_BPS / 10000) =
        C2state.treasuryLamports ∧
      q - q * PROTOCOL_FEE_BPS / 10000 ≤ C2state.treasuryLamports ∧
      C2event.sol_out = q - q * PROTOCOL_FEE_BPS / 10000 :=
  C2_sell_payout_double_fee C2state 500000000000 0 0 C2stateAfter C2event
    (by decide) (by decide)

/-- C3 counterexample: a sell that fails its treasury-liquidity check has
already burned the seller's tokens — in the handler's own execution order
the burn CPI (sell.rs line 133) precedes the treasury check (line 137), so
the failing call does not leave the seller's token balance as it was. -/
theorem C3_burn_before_treasury_counterexample :
    sellRun C3state 1000000 0 0 =
      .err { C3state with traderTokens := 0 } .InsufficientLiquidity ∧
    ({ C3state with traderTokens := 0 } : TradeState).traderTokens ≠
      C3state.traderTokens := by
  refine ⟨by decide, by decide⟩

/-- C3 (amended): buy validates every precondition before any mutation, so
a failed buy leaves the whole state untouched; a failed sell leaves the
curve record and all lamport balances untouched, but its
`InsufficientLiquidity` exit at the treasury check comes after the burn,
so only in that case the seller's token balance has already been debited —
any other sell error leaves the whole state untouched. -/
theorem C3_validate_then_commit :
    (∀ (s : TradeState) (a m : Nat) (ts : Int) (s' : TradeState)
      (e : PumpFunError), buyRun s a m ts = .err s' e → s' = s) ∧
    (∀ (s : TradeState) (tin m : Nat) (ts : Int) (s' : TradeState)
      (e : PumpFunError), sellRun s tin m ts = .err s' e →
      s'.curve = s.curve ∧ s'.traderLamports = s.traderLamports ∧
      s'.treasuryLamports = s.treasuryLamports) ∧
    (∀ (s : TradeState) (tin m : Nat) (ts : Int) (s' : TradeState)
      (e : PumpFunError), sellRun s tin m ts = .err s' e →
      e ≠ .InsufficientLiquidity → s' = s) := by
  refine ⟨?_, ?_, ?_⟩
  · intro s a m ts s' e h
    exact buyRun_err_inv h
  · intro s tin m ts s' e h
    obtain ⟨h1, h2, h3, _⟩ := sellRun_err_inv h
    exact ⟨h1, h2, h3⟩
  · intro s tin m ts s' e h hne
    obtain ⟨_, _, _, h4⟩ := sellRun_err_inv h
    rcases h4 with h4 | ⟨h4, _⟩
    · exact h4
    · exact absurd h4 hne

/-- Witness for C3 (amended) at the failing sell from `C3state`. -/
theorem C3_validate_then_commit_witness :
    ({ C3state with traderTokens := 0 } : TradeState).curve = C3state.curve ∧
    ({ C3state with traderTokens := 0 } : TradeState).traderLamports =
      C3state.traderLamports ∧
    ({ C3state with traderTokens := 0 } : TradeState).treasuryLamports =
      C3state.treasuryLamports :=
  C3_validate_then_commit.2.1 C3state 1000000 0 0
    { C3state with traderTokens := 0 } .InsufficientLiquidity (by decide)

/-- C4 counterexample: at reserves (1e6, 1e6) an accepted buy of 1e6 with
the nonzero 50 bps fee makes the post-trade reserve product strictly
larger than the pre-trade product — the fee is retained in the virtual
reserve, so the product grows rather than shrinks. -/
theorem C4_product_counterexample :
    calculate_tokens_out 1000000 1000000 1000000 = .ok 497500 ∧
    0 < PROTOCOL_FEE_BPS ∧
    1000000 * 1000000 < (1000000 + 1000000) * (1000000 - 497500) := by
  refine ⟨by decide, by decide, by norm_num⟩

/-- C4 (amended): for valid reserves and accepted trades, the post-trade
reserve product is bounded by the old product exactly when the deducted
fee amount floors to zero, and strictly exceeds the old product exactly
when the deducted fee amount is nonzero — for the buy update
(reserves `(s+i, t-out)`) and the sell update (reserves `(s-out', t+i)`)
alike. -/
theorem C4_product_after_trade (i s t oT oS : Nat)
    (hi : 0 < i) (hs : 0 < s) (ht : 0 < t)
    (hsU : s ≤ U64MAX) (htU : t ≤ U64MAX)
    (hsiU : s + i ≤ U64MAX) (htiU : t + i ≤ U64MAX)
    (hT : calculate_tokens_out i s t = .ok oT)
    (hS : calculate_sol_out i s t = .ok oS) :
    ((s + i) * (t - oT) ≤ s * t ↔
      (t - s * t / (s + i)) * PROTOCOL_FEE_BPS / 10000 = 0) ∧
    (s * t < (s + i) * (t - oT) ↔
      0 < (t - s * t / (s + i)) * PROTOCOL_FEE_BPS / 10000) ∧
    ((t + i) * (s - oS) ≤ s * t ↔
      (s - s * t / (t + i)) * PROTOCOL_FEE_BPS / 10000 = 0) ∧
    (s * t < (t + i) * (s - oS) ↔
      0 < (s - s * t / (t + i)) * PROTOCOL_FEE_BPS / 10000) := by
  have hTeq := calculate_tokens_out_eq i s t hi hs ht htU hsiU
  rw [hT] at hTeq
  have hoT : oT = (t - s * t / (s + i)) -
      (t - s * t / (s + i)) * PROTOCOL_FEE_BPS / 10000 := by
    injection hTeq.symm with h1
    exact h1.symm
  have hSeq := calculate_sol_out_eq i s t hi hs ht hsU htiU
  rw [hS] at hSeq
  have hoS : oS = (s - s * t / (t + i)) -
      (s - s * t / (t + i)) * PROTOCOL_FEE_BPS / 10000 := by
    injection hSeq.symm with h1
    exact h1.symm
  have hqT : s * t / (s + i) ≤ t := quot_le_reserve i s t hs
  have hqS : s * t / (t + i) ≤ s := by
    have := quot_le_reserve i t s ht
    rwa [Nat.mul_comm] at this
  have hfT := protocol_fee_div_le (t - s * t / (s + i))
  have hfS := protocol_fee_div_le (s - s * t / (t + i))
  have hdmT := Nat.div_add_mod (s * t) (s + i)
  have hdmS := Nat.div_add_mod (s * t) (t + i)
  have hmodT : s * t % (s + i) < s + i := Nat.mod_lt _ (by omega)
  have hmodS : s * t % (t + i) < t + i := Nat.mod_lt _ (by omega)
  have hsubT : t - oT = s * t / (s + i) +
      (t - s * t / (s + i)) * PROTOCOL_FEE_BPS / 10000 := by
    obtain ⟨q, hq⟩ : ∃ q, s * t / (s + i) = q := ⟨_, rfl⟩
    rw [hq] at hoT hqT hfT ⊢
    obtain ⟨f, hf⟩ : ∃ f, (t - q) * PROTOCOL_FEE_BPS / 10000 = f := ⟨_, rfl⟩
    rw [hf] at hoT hfT ⊢
    omega
  have hsubS : s - oS = s * t / (t + i) +
      (s - s * t / (t + i)) * PROTOCOL_FEE_BPS / 10000 := by
    obtain ⟨q, hq⟩ : ∃ q, s * t / (t + i) = q := ⟨_, rfl⟩
    rw [hq] at hoS hqS hfS ⊢
    obtain ⟨f, hf⟩ : ∃ f, (s - q) * PROTOCOL_FEE_BPS / 10000 = f := ⟨_, rfl⟩
    rw [hf] at hoS hfS ⊢
    omega
  have hcoreT := product_fee_core (s + i) (s * t / (s + i)) (s * t % (s + i))
    ((t - s * t / (s + i)) * PROTOCOL_FEE_BPS / 10000) hmodT
  have hcoreS := product_fee_core (t + i) (s * t / (t + i)) (s * t % (t + i))
    ((s - s * t / (t + i)) * PROTOCOL_FEE_BPS / 10000) hmodS
  rw [hdmT] at hcoreT
  rw [hdmS] at hcoreS
  rw [hsubT, hsubS]
  exact ⟨hcoreT.1, hcoreT.2, hcoreS.1, hcoreS.2⟩

/-- Witness for C4 (amended) at reserves (1e6, 1e6), trade 1e6: the fee is
nonzero there, so the product strictly grows. -/
theorem C4_product_after_trade_witness :
    1000000 * 1000000 < (1000000 + 1000000) * (1000000 - 497500) := by
  have h := C4_product_after_trade 1000000 1000000 1000000 497500 497500
    (by norm_num) (by norm_num) (by norm_num) (by decide) (by decide)
    (by decide) (by decide) (by decide) (by decide)
  exact h.2.1.mpr (by norm_num [PROTOCOL_FEE_BPS])

/-- C5: in every reachable curve state, `tokens_sold` equals the initial
virtual token reserve minus the current virtual token reserve. -/
theorem C5_total_sold_invariant (L : Nat) (s : TradeState) (h : Reach L s) :
    s.curve.tokens_sold =
      INITIAL_VIRTUAL_TOKEN_RESERVE - s.curve.virtual_token_reserve := by
  have h2 := reach_inv h
  omega

/-- Witness for C5 at the state reached by a concrete minimum buy. -/
theorem C5_total_sold_invariant_witness :
    S1c10.curve.tokens_sold =
      INITIAL_VIRTUAL_TOKEN_RESERVE - S1c10.curve.virtual_token_reserve :=
  C5_total_sold_invariant 1000000 S1c10
    (Reach.buy S0c10 S1c10 1000000 0 0 EV1c10 (Reach.init 0) (by decide))

/-- C6: after every successful buy, the curve is completed (flag set,
`completed_at` stamped, event carrying `completed = true`) exactly when
the new virtual base reserve reached `TARGET_VIRTUAL_MC`, equality
included; one unit below, it stays active; and `is_complete` is true
exactly on reserves at or above the threshold. -/
theorem C6_graduation_on_buy (s : TradeState) (a m : Nat) (ts : Int)
    (s' : TradeState) (ev : TokenBought) (h : buyRun s a m ts = .ok s' ev) :
    (∀ n, is_complete n = true ↔ TARGET_VIRTUAL_MC ≤ n) ∧
    (TARGET_VIRTUAL_MC ≤ s'.curve.virtual_sol_reserve →
      s'.curve.completed = true ∧ s'.curve.completed_at = some ts ∧
      ev.completed = true) ∧
    (s'.curve.virtual_sol_reserve < TARGET_VIRTUAL_MC →
      s'.curve.completed = false ∧ ev.completed = false) := by
  obtain ⟨hcompl, hmin, tout, c1, hcalc, hslip, hupd, hcurve, htok, hlam,
    htreas, hev⟩ := buyRun_ok_inv h
  have hic : ∀ n, is_complete n = true ↔ TARGET_VIRTUAL_MC ≤ n := by
    intro n
    simp [is_complete]
  have hvs : s'.curve.virtual_sol_reserve = c1.virtual_sol_reserve := by
    rw [hcurve]
    by_cases hcp : is_complete c1.virtual_sol_reserve
    · simp [hcp, BondingCurve.complete]
    · simp [hcp]
  refine ⟨hic, ?_, ?_⟩
  · intro hge
    have hcp : is_complete c1.virtual_sol_reserve = true := by
      rw [hic, ← hvs]
      exact hge
    rw [hcurve, hcp, hev]
    simp [BondingCurve.complete, hcp]
  · intro hlt
    have hcp : is_complete c1.virtual_sol_reserve = false := by
      rw [← Bool.not_eq_true, hic]
      omega
    have hc1compl : c1.completed = false := by
      obtain ⟨_, _, _, _, hc1⟩ := update_after_buy_some hupd
      rw [hc1]
      exact hcompl
    rw [hcurve, hcp, hev]
    simp [hcp, hc1compl]

/-- Witness for C6 at a buy that lands exactly on the threshold. -/
theorem C6_graduation_on_buy_witness :
    C6stateAfter.curve.completed = true ∧
    C6stateAfter.curve.completed_at = some 7 ∧ C6event.completed = true :=
  (C6_graduation_on_buy C6state 1000000 0 7 C6stateAfter C6event
    (by decide)).2.1 (by decide)

/-- C7: `Create::execute` reads `global_config` immutably and returns with
`total_tokens_created` unchanged — the counter stays `0` after a
successful create instead of becoming `1`. -/
theorem C7_create_counter_unchanged :
    createRun (GlobalConfig.initConfig 1 2 3) CREATION_FEE 0 0 =
      .ok (GlobalConfig.initConfig 1 2 3, 0, CREATION_FEE,
        BondingCurve.initCurve 0) ∧
    (GlobalConfig.initConfig 1 2 3).total_tokens_created = 0 := by
  refine ⟨by decide, by decide⟩

/-- C8: `complete` on an already-completed curve always fails with
`AlreadyCompleted`; on an active curve below the graduation threshold it
fails with `NotCompleted`; it succeeds exactly when the curve is active
and graduated, setting `completed` and `completed_at`. -/
theorem C8_complete_lifecycle (c : BondingCurve) (ts : Int) :
    (c.completed = true → completeRun c ts = .error .AlreadyCompleted) ∧
    (c.completed = false → c.virtual_sol_reserve < TARGET_VIRTUAL_MC →
      completeRun c ts = .error .NotCompleted) ∧
    (c.completed = false → TARGET_VIRTUAL_MC ≤ c.virtual_sol_reserve →
      completeRun c ts = .ok { c with completed := true, completed_at := some ts }) ∧
    (∀ c', completeRun c ts = .ok c' →
      c.completed = false ∧ TARGET_VIRTUAL_MC ≤ c.virtual_sol_reserve ∧
      c'.completed = true ∧ c'.completed_at = some ts) := by
  refine ⟨?_, ?_, ?_, ?_⟩
  · intro hc
    simp [completeRun, hc]
  · intro hc hlt
    simp [completeRun, hc, is_complete, Nat.not_le.mpr hlt]
  · intro hc hge
    simp [completeRun, hc, is_complete, hge, BondingCurve.complete]
  · intro c' h
    by_cases hc : c.completed
    · simp [completeRun, hc] at h
    · by_cases hge : TARGET_VIRTUAL_MC ≤ c.virtual_sol_reserve
      · simp [completeRun, hc, is_complete, hge, BondingCurve.complete] at h
        refine ⟨by simp [hc], hge, ?_, ?_⟩
        · rw [← h]
        · rw [← h]
      · simp [completeRun, hc, is_complete,
          Nat.not_le.mpr (Nat.not_le.mp hge)] at h

/-- Witness for C8 at the three boundary curves. -/
theorem C8_complete_lifecycle_witness :
    completeRun C8done 5 = .error .AlreadyCompleted ∧
    completeRun C8low 5 = .error .NotCompleted ∧
    completeRun C8ready 5 =
      .ok { C8ready with completed := true, completed_at := some 5 } :=
  ⟨(C8_complete_lifecycle C8done 5).1 (by decide),
    (C8_complete_lifecycle C8low 5).2.1 (by decide) (by decide),
    (C8_complete_lifecycle C8ready 5).2.2.1 (by decide) (by decide)⟩

/-- C9: for fixed `u64` reserves, `quoteBuy` is monotonically
non-decreasing in `baseIn` over all inputs on which it succeeds, and
`quoteSell` is monotonically non-decreasing in `assetIn`. -/
theorem C9_quote_monotonic :
    (∀ baseReserve assetReserve a b oa ob : Nat, a ≤ b →
      assetReserve ≤ U64MAX →
      calculate_tokens_out a baseReserve assetReserve = .ok oa →
      calculate_tokens_out b baseReserve assetReserve = .ok ob →
      oa ≤ ob) ∧
    (∀ baseReserve assetReserve a b oa ob : Nat, a ≤ b →
      baseReserve ≤ U64MAX →
      calculate_sol_out a baseReserve assetReserve = .ok oa →
      calculate_sol_out b baseReserve assetReserve = .ok ob →
      oa ≤ ob) := by
  constructor
  · intro s t a b oa ob hab htU ha hb
    obtain ⟨ha0, hs0, ht0, haU⟩ := calculate_tokens_out_pos ha
    obtain ⟨hb0, _, _, hbU⟩ := calculate_tokens_out_pos hb
    rw [calculate_tokens_out_eq a s t ha0 hs0 ht0 htU haU] at ha
    rw [calculate_tokens_out_eq b s t hb0 hs0 ht0 htU hbU] at hb
    injection ha with ha1
    injection hb with hb1
    rw [← ha1, ← hb1]
    have hdiv : s * t / (s + b) ≤ s * t / (s + a) :=
      Nat.div_le_div_left (by omega) (by omega)
    exact sub_fee_mono _ _ (Nat.sub_le_sub_left hdiv t)
  · intro s t a b oa ob hab hsU ha hb
    obtain ⟨ha0, hs0, ht0, haU⟩ := calculate_sol_out_pos ha
    obtain ⟨hb0, _, _, hbU⟩ := calculate_sol_out_pos hb
    rw [calculate_sol_out_eq a s t ha0 hs0 ht0 hsU haU] at ha
    rw [calculate_sol_out_eq b s t hb0 hs0 ht0 hsU hbU] at hb
    injection ha with ha1
    injection hb with hb1
    rw [← ha1, ← hb1]
    have hdiv : s * t / (t + b) ≤ s * t / (t + a) :=
      Nat.div_le_div_left (by omega) (by omega)
    exact sub_fee_mono _ _ (Nat.sub_le_sub_left hdiv s)

/-- Witness for C9 at two concrete buys and two concrete sells on the seed
reserves. -/
theorem C9_quote_monotonic_witness :
    (26300289991 : Nat) ≤ 52598826746 ∧ (37642 : Nat) ≤ 75284 :=
  ⟨C9_quote_monotonic.1 30000000000 793000000000000 1000000 2000000
      26300289991 52598826746 (by norm_num) (by decide) (by decide) (by decide),
    C9_quote_monotonic.2 30000000000 793000000000000 1000000000 2000000000
      37642 75284 (by norm_num) (by decide) (by decide) (by decide)⟩

/-- C10: a reachable state (`create`, then `buy(0.001 SOL)`, then 999999
single-token sells) in which one more sell of 26433 token units passes
every handler check — the quote succeeds at 2 lamports, slippage and the
treasury balance are fine, the seller owns the tokens — yet
`sol_out = 2` exceeds `real_sol_reserve = 1`, so `update_after_sell`
panics on the `real_sol_reserve` `checked_sub` instead of returning an
error. -/
theorem C10_sell_panic_reachable :
    Reach 1000000 S3c10 ∧
    calculate_sol_out 26433 S3c10.curve.virtual_sol_reserve
      S3c10.curve.virtual_token_reserve = .ok 2 ∧
    S3c10.curve.real_sol_reserve < 2 ∧
    sellRun S3c10 26433 0 0 = .aborted SXc10 := by
  refine ⟨?_, by decide, by decide, by decide⟩
  have h1 : Reach 1000000 S1c10 :=
    Reach.buy S0c10 S1c10 1000000 0 0 EV1c10 (Reach.init 0) (by decide)
  have h3 := reach_unit_sells 1000000 999999 S1c10 h1 (by decide) (by decide)
    (by decide) (by decide) (by decide) (by decide) (by decide) (by decide)
    (by decide) (by decide)
  have heq : afterUnitSells S1c10 999999 = S3c10 := by decide
  rwa [heq] at h3
